import Mathlib

/-!
Shallow embedding of the note-management program in `main.py` of the
NotesManager repository, together with theorems settling the specified
properties of its note-collection lifecycle core.

Modelling conventions:
- a directory listing (the result of `os.listdir`) is a `List String` of entry
  names in an arbitrary, filesystem-defined order;
- the notes directory state is an association list from entry name to file
  content (`Fs`), listed in that same enumeration order;
- Python string primitives used by the program (`endswith`, `lower`,
  `split(' ')`, `strip`, `int(...)`) are re-implemented on the character
  lists underlying `String`, following Python semantics;
- machine-level dates are whole-day counts (`Int`), matching how the program
  compares `datetime.date` values via `(now - creation_date).days`.
-/

namespace NotesManager

/-- The recognized note suffix: `TXT_EXTENSION = '.txt'` in `main.py`. -/
def TXT_EXTENSION : String := ".txt"

/-- Python `s.endswith(sfx)`: the suffix test used throughout `main.py` to
recognize note files. -/
def py_endswith (s sfx : String) : Bool :=
  sfx.data.isSuffixOf s.data

/-- Python `s.lower()`: character-wise lowercasing, as applied to filenames by
`list_notes`. -/
def py_lower (s : String) : String :=
  String.mk (s.data.map Char.toLower)

/-- Lexicographic comparison of filenames by character code, ascending: the
sort order the specification prescribes for display and resolution. -/
def lexLeB : List Char → List Char → Bool
  | [], _ => true
  | _ :: _, [] => false
  | a :: as, b :: bs =>
    if a < b then true else if b < a then false else lexLeB as bs

/-- The sequence of note identities `list_notes` displays (main.py lines
74-87): `[f.lower() for f in os.listdir(NOTES_DIR) if f.endswith(TXT_EXTENSION)]`,
shown with 1-based positions. -/
def list_notes (dir : List String) : List String :=
  (dir.filter (fun f => py_endswith f TXT_EXTENSION)).map py_lower

/-- The snapshot `open_note` resolves ordinals against (main.py line 104):
`[f for f in os.listdir(NOTES_DIR) if f.endswith(TXT_EXTENSION)]`. -/
def open_note_snapshot (dir : List String) : List String :=
  dir.filter (fun f => py_endswith f TXT_EXTENSION)

/-- The snapshot `update_note` resolves ordinals against (main.py lines
173-174): `[file for file in os.listdir(NOTES_DIR) if file.endswith(TXT_EXTENSION)]`. -/
def update_note_snapshot (dir : List String) : List String :=
  dir.filter (fun f => py_endswith f TXT_EXTENSION)

/-- The snapshot `send_note_to_trash` resolves ordinals against (main.py line
230): `[f for f in os.listdir(NOTES_DIR) if f.endswith(TXT_EXTENSION)]`. -/
def send_note_to_trash_snapshot (dir : List String) : List String :=
  dir.filter (fun f => py_endswith f TXT_EXTENSION)

/-- The snapshot `delete_note` resolves ordinals against (main.py line 204):
`[file for file in os.listdir(NOTES_DIR)]` — every directory entry, with no
suffix condition, unlike the other three by-ordinal operations. -/
def delete_note_snapshot (dir : List String) : List String :=
  dir

/-- The shared ordinal-resolution template of the four by-ordinal operations:
`if 1 <= note_num <= len(notes): notes[note_num - 1]`, and an out-of-range
report otherwise (modelled as `none`). -/
def resolve (n : Int) (snap : List String) : Option String :=
  if 1 ≤ n ∧ n ≤ (snap.length : Int) then snap[(n - 1).toNat]? else none

/-- The notes directory state: entry name and file content for each file, in
the enumeration order `os.listdir` reports. -/
structure Fs where
  entries : List (String × String)
deriving DecidableEq

/-- The names `os.listdir(NOTES_DIR)` returns for this state. -/
def Fs.names (fs : Fs) : List String :=
  fs.entries.map Prod.fst

/-- Reading a file: `open(path, 'r').read()`, `none` when no such entry
exists. -/
def Fs.read (fs : Fs) (f : String) : Option String :=
  (fs.entries.find? (fun e => e.1 == f)).map Prod.snd

/-- `os.path.exists` on an entry of the notes directory. -/
def Fs.pathExists (fs : Fs) (f : String) : Bool :=
  fs.names.contains f

/-- Writing a file with `open(path, 'w')`: overwrites the existing entry in
place, or appends a new entry to the directory. -/
def Fs.write (fs : Fs) (f content : String) : Fs :=
  if fs.pathExists f then
    ⟨fs.entries.map (fun e => if e.1 = f then (f, content) else e)⟩
  else
    ⟨fs.entries ++ [(f, content)]⟩

/-- `create_note` (main.py lines 141-156) after the two inputs are read: warns
when `<title>.txt` already exists (`os.path.exists`), then writes the new
content to `<title>.txt` regardless. Returns the new state and whether the
warning was printed. -/
def create_note (title content : String) (fs : Fs) : Fs × Bool :=
  let filename := title ++ TXT_EXTENSION
  (fs.write filename content, fs.pathExists filename)

/-- The re-listed, suffix-filtered snapshot `open_note` takes of a directory
state. -/
def note_files (fs : Fs) : List String :=
  fs.names.filter (fun f => py_endswith f TXT_EXTENSION)

/-- `open_note` (main.py lines 90-116) after the number parsed: re-lists the
suffix-filtered snapshot, resolves the ordinal, reads the resolved file, and
shows its title and content; `none` models the out-of-range report. -/
def open_note (n : Int) (fs : Fs) : Option (String × String) :=
  match resolve n (note_files fs) with
  | some name => (fs.read name).map (fun content => (name, content))
  | none => none

/-- Splitter underlying Python `str.split(sep)` for a one-character separator:
splits at every occurrence, keeping empty pieces, and yields `[""]` on empty
input. -/
def splitCharsAux (p : Char → Bool) : List Char → List Char → List String
  | [], acc => [String.mk acc.reverse]
  | c :: cs, acc =>
    if p c then String.mk acc.reverse :: splitCharsAux p cs []
    else splitCharsAux p cs (c :: acc)

/-- Python `buffer.split(' ')` as called by `words_frequency` (main.py line
336): split at each single space character. -/
def py_split_space (s : String) : List String :=
  splitCharsAux (fun c => c == ' ') s.data []

/-- `words_frequency` (main.py lines 321-339): a `defaultdict(int)` bumped
once per token of `buffer.split(' ')`, modelled as the resulting count
function. -/
def words_frequency (buffer : String) : String → Nat :=
  (py_split_space buffer).foldl
    (fun d word => fun w => if w = word then d w + 1 else d w)
    (fun _ => 0)

/-- Modelled from the spec for comparison with `words_frequency`: the spec
says word frequency `tokenizes content by whitespace` and counts occurrences;
whitespace tokenization (Python `str.split()` with no argument) splits on
whitespace runs and produces no empty tokens. -/
def whitespace_words_frequency (buffer : String) : String → Nat :=
  ((splitCharsAux (fun c => c.isWhitespace) buffer.data []).filter
      (fun t => t ≠ "")).foldl
    (fun d word => fun w => if w = word then d w + 1 else d w)
    (fun _ => 0)

/-- A backup archive in `BACKUP_DIR`: its name and its creation date, as a
whole-day count (the `date` of `os.path.getctime`). -/
structure Backup where
  name : String
  creationDate : Int
deriving DecidableEq

/-- `delete_old_backups` (main.py lines 261-274): removes every file of the
backup directory whose age `(now - creation_date).days` is at least 1 day;
the surviving listing is returned. -/
def delete_old_backups (now : Int) (backups : List Backup) : List Backup :=
  backups.filter (fun b => !decide (1 ≤ now - b.creationDate))

/-- `export_to_csv` (main.py lines 277-299): builds one record per
suffix-filtered note with fields `title` (the filename) and `content` (the
file text), then writes them through `csv.DictWriter` with fieldnames
`['title', 'content']` and no `writeheader()` call, so the emitted file is
exactly these rows. Reading a listed file always succeeds in the one-state
model, so the default `""` is never used. -/
def export_to_csv_rows (fs : Fs) : List (List String) :=
  (fs.names.filter (fun f => py_endswith f TXT_EXTENSION)).map
    (fun f => [f, (fs.read f).getD ""])

/-- Python `s.strip()` on the character list of a string. -/
def py_strip (l : List Char) : List Char :=
  ((l.dropWhile Char.isWhitespace).reverse.dropWhile Char.isWhitespace).reverse

/-- Models the builtin `int(choice)` conversion of the read menu line:
optional surrounding whitespace and an optional sign followed by one or more
decimal digits; any other input raises `ValueError`, modelled as `none`. -/
def python_int (s : String) : Option Int :=
  let t := py_strip s.data
  let signDigits : Int × List Char :=
    match t with
    | '-' :: rest => (-1, rest)
    | '+' :: rest => (1, rest)
    | rest => (1, rest)
  let sign := signDigits.1
  let digits := signDigits.2
  if digits ≠ [] ∧ digits.all (fun c => c.isDigit) then
    some (sign * ((digits.foldl (fun acc c => 10 * acc + (c.toNat - '0'.toNat)) 0 : Nat) : Int))
  else none

/-- Outcome of one pass through the body of `main_loop` (main.py lines
449-507): either the session dies with an unhandled `UnboundLocalError`, or
the `match` statement runs on some choice value and the loop proceeds,
remembering that value for the next iteration. -/
inductive MenuOutcome where
  | crash : MenuOutcome
  | step : Int → Option Int → MenuOutcome
deriving DecidableEq

/-- One iteration of the choice handling in `main_loop` (main.py lines
470-506): `int(choice)` is attempted; on `ValueError` a message is printed
but control still reaches `match _choice`, which uses the value left from a
previous iteration — or raises `UnboundLocalError` (ending the program) when
no iteration has ever bound `_choice`. -/
def main_loop_step (prev : Option Int) (raw : String) : MenuOutcome :=
  match python_int raw with
  | some n => MenuOutcome.step n (some n)
  | none =>
    match prev with
    | some old => MenuOutcome.step old (some old)
    | none => MenuOutcome.crash

lemma find?_replace_of_mem (f c : String) (l : List (String × String))
    (h : f ∈ l.map Prod.fst) :
    (l.map (fun e => if e.1 = f then (f, c) else e)).find? (fun e => e.1 == f)
      = some (f, c) := by
  induction l with
  | nil => simp at h
  | cons e l ih =>
    by_cases he : e.1 = f
    · simp [List.find?_cons, he]
    · have hf : f ∈ l.map Prod.fst := by
        simp only [List.map_cons, List.mem_cons] at h
        rcases h with h1 | h1
        · exact absurd h1.symm he
        · exact h1
      simpa [List.find?_cons, he] using ih hf

lemma find?_none_of_not_mem (f : String) (l : List (String × String))
    (h : f ∉ l.map Prod.fst) : l.find? (fun e => e.1 == f) = none := by
  apply List.find?_eq_none.mpr
  intro e he hb
  exact h (List.mem_map.mpr ⟨e, he, by simpa using hb⟩)

lemma Fs.read_write (fs : Fs) (f c : String) : (fs.write f c).read f = some c := by
  unfold Fs.write
  by_cases h : fs.pathExists f
  · have hf : f ∈ fs.entries.map Prod.fst := by
      simpa [Fs.pathExists, Fs.names] using h
    simp [h, Fs.read, find?_replace_of_mem f c fs.entries hf]
  · have hf : f ∉ fs.entries.map Prod.fst := by
      simpa [Fs.pathExists, Fs.names] using h
    simp [h, Fs.read, List.find?_append, find?_none_of_not_mem f fs.entries hf, List.find?]

lemma mem_names_of_read (fs : Fs) (f v : String) (h : fs.read f = some v) :
    f ∈ fs.names := by
  unfold Fs.read at h
  rcases Option.map_eq_some'.mp h with ⟨e, hfind, hv⟩
  have hmem := List.mem_of_find?_eq_some hfind
  have hp : e.1 = f := by simpa using List.find?_some hfind
  exact hp ▸ List.mem_map.mpr ⟨e, hmem, rfl⟩

lemma pathExists_of_read (fs : Fs) (f v : String) (h : fs.read f = some v) :
    fs.pathExists f = true := by
  have := mem_names_of_read fs f v h
  simpa [Fs.pathExists] using this


/-- Claim C1, counterexample: the claim says the display sequence of
`list_notes` and the resolution sequence of the by-ordinal operations are
both sorted by filename lexicographically ascending. Neither function sorts:
for the directory enumeration `["b.txt", "a.txt"]` (a legal `os.listdir`
order) both sequences come out in enumeration order, not sorted. -/
theorem C1_counterexample :
    ¬ (List.Sorted (fun a b : String => lexLeB a.data b.data = true)
        (list_notes ["b.txt", "a.txt"]) ∧
       List.Sorted (fun a b : String => lexLeB a.data b.data = true)
        (open_note_snapshot ["b.txt", "a.txt"])) := by
  decide

/-- Claim C1, amended: display and resolution both use the unsorted
directory enumeration order filtered by the note suffix, so against one
directory state every ordinal resolves, on both sequences, to the same
position, the displayed identity being the lowercasing of the resolved
filename. -/
theorem C1_display_matches_resolution (dir : List String) (n : Int) :
    resolve n (list_notes dir) = (resolve n (open_note_snapshot dir)).map py_lower := by
  by_cases h : 1 ≤ n ∧ n ≤ ((dir.filter (fun f => py_endswith f TXT_EXTENSION)).length : Int)
  · simp [resolve, list_notes, open_note_snapshot, List.length_map, h, List.getElem?_map]
  · simp [resolve, list_notes, open_note_snapshot, List.length_map, h]

/-- Claim C2, evaluation at the failing input: `open_note`, `update_note`
and `send_note_to_trash` resolve ordinals against the note-suffix-filtered
listing, but `delete_note` resolves against the raw unfiltered listing. In
a directory holding `a.md` and `b.txt`, ordinal 1 denotes `b.txt` for the
other three operations (and for the displayed list) while `delete_note`
resolves it to `a.md` and would permanently remove that file. -/
theorem C2_delete_snapshot_unfiltered :
    open_note_snapshot ["a.md", "b.txt"] = ["b.txt"] ∧
    update_note_snapshot ["a.md", "b.txt"] = ["b.txt"] ∧
    send_note_to_trash_snapshot ["a.md", "b.txt"] = ["b.txt"] ∧
    delete_note_snapshot ["a.md", "b.txt"] = ["a.md", "b.txt"] ∧
    resolve 1 (delete_note_snapshot ["a.md", "b.txt"]) = some "a.md" ∧
    resolve 1 (open_note_snapshot ["a.md", "b.txt"]) = some "b.txt" := by
  decide

/-- Claim C3, evaluation at the failing input: the claim says every
non-integer menu input is reported and the loop continues. In `main_loop`
the `match _choice` statement still runs after the `ValueError` handler; on
the first iteration `_choice` has never been bound, so entering `abc` as the
first menu choice raises `UnboundLocalError` and terminates the session. -/
theorem C3_first_iteration_crash :
    python_int "abc" = none ∧ main_loop_step none "abc" = MenuOutcome.crash := by
  decide

/-- Claim C10: word frequency of the empty content string is not the empty
mapping — `''.split(' ')` yields the single empty token, so
`words_frequency ""` assigns count 1 to the empty string and 0 to every
other string. -/
theorem C10_empty_content (w : String) :
    words_frequency "" w = if w = "" then 1 else 0 := by
  have h : py_split_space "" = [""] := by decide
  simp only [words_frequency, h, List.foldl]
  by_cases h1 : w = "" <;> simp [h1]

/-- Claim C4: when the title of `create_note` already names an existing
note, the warning is reported and the operation still completes, the
existing file ending up with the newly entered content (warn-but-proceed,
not abort). -/
theorem C4_create_warns_and_overwrites (fs : Fs) (title content old : String)
    (h : fs.read (title ++ TXT_EXTENSION) = some old) :
    (create_note title content fs).2 = true ∧
    (create_note title content fs).1.read (title ++ TXT_EXTENSION) = some content := by
  constructor
  · simpa [create_note] using pathExists_of_read fs _ old h
  · simpa [create_note] using Fs.read_write fs (title ++ TXT_EXTENSION) content

/-- Claim C4 witness: overwriting creation over an existing `a.txt`. -/
theorem C4_witness :
    (create_note "a" "new" ⟨[("a.txt", "old")]⟩).2 = true ∧
    (create_note "a" "new" ⟨[("a.txt", "old")]⟩).1.read ("a" ++ TXT_EXTENSION)
      = some "new" :=
  C4_create_warns_and_overwrites ⟨[("a.txt", "old")]⟩ "a" "new" "old" (by decide)

/-- Claim C5: against a snapshot of size N, ordinal resolution fails exactly
when the ordinal is below 1 or above N, succeeds on every ordinal in 1..N,
and (the snapshot listing distinct filenames) distinct valid ordinals
resolve to distinct note identities. -/
theorem C5_resolve_range_and_distinct (snap : List String) (n m : Int)
    (hnd : snap.Nodup) :
    (resolve n snap = none ↔ (n < 1 ∨ (snap.length : Int) < n)) ∧
    (1 ≤ n → n ≤ (snap.length : Int) → ∃ name, resolve n snap = some name) ∧
    (1 ≤ n → n ≤ (snap.length : Int) → 1 ≤ m → m ≤ (snap.length : Int) →
      resolve n snap = resolve m snap → n = m) := by
  have hidx : ∀ k : Int, 1 ≤ k → k ≤ (snap.length : Int) →
      ((k - 1).toNat) < snap.length := by
    intro k h1 h2; omega
  refine ⟨⟨?_, ?_⟩, ?_, ?_⟩
  · intro h
    by_contra hc
    push_neg at hc
    obtain ⟨h1, h2⟩ := hc
    rw [resolve, if_pos ⟨h1, h2⟩] at h
    rw [List.getElem?_eq_none_iff] at h
    have := hidx n h1 h2
    omega
  · intro h
    rw [resolve, if_neg]
    rcases h with h | h <;> omega
  · intro h1 h2
    refine ⟨snap.get ⟨(n - 1).toNat, hidx n h1 h2⟩, ?_⟩
    rw [resolve, if_pos ⟨h1, h2⟩, List.getElem?_eq_getElem (hidx n h1 h2)]
    rfl
  · intro h1 h2 h3 h4 heq
    simp only [resolve] at heq
    rw [if_pos ⟨h1, h2⟩, if_pos ⟨h3, h4⟩,
      List.getElem?_eq_getElem (hidx n h1 h2),
      List.getElem?_eq_getElem (hidx m h3 h4)] at heq
    have hix := (List.Nodup.getElem_inj_iff hnd).mp (Option.some.inj heq)
    omega

/-- Claim C5 witness: the two-element snapshot `["a.txt", "b.txt"]` with
ordinals 1 and 2. -/
theorem C5_witness :
    ((resolve 1 ["a.txt", "b.txt"] = none ↔
        ((1 : Int) < 1 ∨ (((["a.txt", "b.txt"] : List String).length : Int) < 1))) ∧
     ((1 : Int) ≤ 1 → (1 : Int) ≤ ((["a.txt", "b.txt"] : List String).length : Int) →
        ∃ name, resolve 1 ["a.txt", "b.txt"] = some name) ∧
     ((1 : Int) ≤ 1 → (1 : Int) ≤ ((["a.txt", "b.txt"] : List String).length : Int) →
        (1 : Int) ≤ 2 → (2 : Int) ≤ ((["a.txt", "b.txt"] : List String).length : Int) →
        resolve 1 ["a.txt", "b.txt"] = resolve 2 ["a.txt", "b.txt"] → (1 : Int) = 2)) :=
  C5_resolve_range_and_distinct ["a.txt", "b.txt"] 1 2 (by decide)

/-- Claim C6: after `create_note title content`, reading by ordinal at the
position where the created note resolves in the freshly re-listed snapshot
returns exactly the content that was written. -/
theorem C6_create_read_roundtrip (fs : Fs) (title content : String)
    (hext : py_endswith (title ++ TXT_EXTENSION) TXT_EXTENSION = true) :
    open_note
      (((note_files (create_note title content fs).1).indexOf
          (title ++ TXT_EXTENSION) : Int) + 1)
      (create_note title content fs).1
      = some (title ++ TXT_EXTENSION, content) := by
  have hread : ((create_note title content fs).1).read (title ++ TXT_EXTENSION)
      = some content := Fs.read_write fs (title ++ TXT_EXTENSION) content
  have hmemn : (title ++ TXT_EXTENSION) ∈ ((create_note title content fs).1).names :=
    mem_names_of_read _ _ _ hread
  have hmem : (title ++ TXT_EXTENSION) ∈ note_files (create_note title content fs).1 :=
    List.mem_filter.mpr ⟨hmemn, hext⟩
  have hlt : (note_files (create_note title content fs).1).indexOf (title ++ TXT_EXTENSION)
      < (note_files (create_note title content fs).1).length :=
    List.indexOf_lt_length.mpr hmem
  have hres : resolve
      (((note_files (create_note title content fs).1).indexOf (title ++ TXT_EXTENSION) : Int) + 1)
      (note_files (create_note title content fs).1)
      = some (title ++ TXT_EXTENSION) := by
    rw [resolve, if_pos (by omega : (1 : Int) ≤ _ ∧ _)]
    have harg : ((((note_files (create_note title content fs).1).indexOf
        (title ++ TXT_EXTENSION) : Int) + 1 - 1).toNat)
        = (note_files (create_note title content fs).1).indexOf (title ++ TXT_EXTENSION) := by
      omega
    rw [harg]
    exact List.getElem?_indexOf hmem
  rw [open_note, hres]
  simp [hread]

/-- Claim C6 witness: creating note `a` with content `x` in an empty
directory and reading it back by ordinal. -/
theorem C6_witness :
    open_note
      (((note_files (create_note "a" "x" ⟨[]⟩).1).indexOf ("a" ++ TXT_EXTENSION) : Int) + 1)
      (create_note "a" "x" ⟨[]⟩).1
      = some ("a" ++ TXT_EXTENSION, "x") :=
  C6_create_read_roundtrip ⟨[]⟩ "a" "x" (by decide)

/-- Claim C7, counterexample: the claim says `words_frequency` tokenizes by
whitespace. It splits on the single space character only: on content with a
tab, `a` followed by tab followed by `b`, it counts one token equal to the
whole content and no token `a`, while whitespace tokenization (the spec
wording, modelled by `whitespace_words_frequency`) counts the token `a`
once. -/
theorem C7_counterexample :
    words_frequency "a\tb" "a" = 0 ∧
    words_frequency "a\tb" "a\tb" = 1 ∧
    whitespace_words_frequency "a\tb" "a" = 1 ∧
    whitespace_words_frequency "a\tb" "a\tb" = 0 := by
  decide

/-- Claim C7, amended: `words_frequency` is a pure function of the content
that splits on the single space character, with no punctuation stripping or
case folding, and counts the occurrences of each resulting token; on
content `milk eggs bread milk` it returns milk 2, eggs 1, bread 1 and
count 0 for every other string. -/
theorem C7_single_space_token_counts (w : String) :
    words_frequency "milk eggs bread milk" w =
      (if w = "milk" then 2 else if w = "eggs" then 1 else
        if w = "bread" then 1 else 0) := by
  have h : py_split_space "milk eggs bread milk" = ["milk", "eggs", "bread", "milk"] := by
    decide
  by_cases h1 : w = "milk"
  · subst h1; decide
  · by_cases h2 : w = "eggs"
    · subst h2; decide
    · by_cases h3 : w = "bread"
      · subst h3; decide
      · simp only [words_frequency, h, List.foldl]
        simp [h1, h2, h3]

/-- Claim C8: `delete_old_backups` is idempotent — run twice with the same
`now` and no backups created in between, the second run removes nothing —
and after the first run every surviving archive has age in whole days
strictly below the 1-day retention threshold. -/
theorem C8_purge_idempotent (now : Int) (backups : List Backup) :
    delete_old_backups now (delete_old_backups now backups)
      = delete_old_backups now backups ∧
    (delete_old_backups now backups).all
      (fun b => decide (now - b.creationDate < 1)) = true := by
  constructor
  · simp [delete_old_backups, List.filter_filter]
  · rw [List.all_eq_true]
    intro b hb
    have h := List.of_mem_filter hb
    simp only [Bool.not_eq_true', decide_eq_false_iff_not, not_le] at h
    simp only [decide_eq_true_eq]
    omega

/-- Claim C9, counterexample: the claim says the CSV export contains a
header row followed by one row per note. `export_to_csv` never calls
`writeheader()`: for a single note the emitted file has exactly one row,
and its first row is the note row, not the `title, content` header. -/
theorem C9_counterexample :
    (export_to_csv_rows ⟨[("a.txt", "x")]⟩).length = 1 ∧
    (export_to_csv_rows ⟨[("a.txt", "x")]⟩).head? ≠ some ["title", "content"] := by
  decide

/-- Claim C9, amended: the CSV export contains exactly one row per
suffix-filtered note and no header row; every row has the two columns,
the note filename as title and the note content. -/
theorem C9_rows_one_per_note (fs : Fs) (r : List String)
    (hr : r ∈ export_to_csv_rows fs) :
    (export_to_csv_rows fs).length = (note_files fs).length ∧
    r.length = 2 ∧
    ∃ f ∈ note_files fs, r = [f, (fs.read f).getD ""] := by
  obtain ⟨f, hf, heq⟩ := List.mem_map.mp hr
  subst heq
  exact ⟨by simp [export_to_csv_rows, note_files], rfl, ⟨f, hf, rfl⟩⟩

/-- Claim C9 witness: the one-note directory holding `a.txt`. -/
theorem C9_witness :
    (export_to_csv_rows ⟨[("a.txt", "x")]⟩).length
      = (note_files ⟨[("a.txt", "x")]⟩).length ∧
    (["a.txt", "x"] : List String).length = 2 ∧
    ∃ f ∈ note_files ⟨[("a.txt", "x")]⟩,
      (["a.txt", "x"] : List String) = [f, ((⟨[("a.txt", "x")]⟩ : Fs).read f).getD ""] :=
  C9_rows_one_per_note ⟨[("a.txt", "x")]⟩ ["a.txt", "x"] (by decide)

end NotesManager
